import Mathlib

/-!
Shallow embedding of `vra_guest.py` (Ansible module provisioning a VMware vRA
guest from a blueprint) and verification of its specification claims.

Python JSON values are modelled by `JVal`; Python dicts by association lists
with first-occurrence lookup and in-place update (`findEntry` / `setEntry`);
`requests` responses and the remote server are modelled by an `Env` of
response oracles; `module.fail_json` is modelled as an `Except.error`
that aborts the run; an exception that is *not* caught by any `try/except`
is modelled by the distinguished `ModuleExit.exn` outcome.
-/

set_option autoImplicit false

namespace VraGuest

/-- A JSON value, as manipulated by the Python module. -/
inductive JVal where
  | str (s : String)
  | int (n : Int)
  | bool (b : Bool)
  | null
  | arr (xs : List JVal)
  | obj (fields : List (String × JVal))

/-- First-occurrence lookup in a Python dict (keys are unique in a real dict,
so first occurrence is the occurrence). -/
def findEntry {α : Type} : List (String × α) → String → Option α
  | [], _ => none
  | (k, v) :: rest, key => if k = key then some v else findEntry rest key

/-- Python dict assignment `d[key] = v`: updates the value in place if the key
exists (keeping its position), otherwise appends the new key. -/
def setEntry {α : Type} : List (String × α) → String → α → List (String × α)
  | [], key, v => [(key, v)]
  | (k, w) :: rest, key, v =>
    if k = key then (k, v) :: rest else (k, w) :: setEntry rest key v

/-- Python `str(KeyError(k))`. -/
def keyError (k : String) : String := "KeyError: '" ++ k ++ "'"

/-- Subscripting a value that must be a dict; anything else raises. -/
def asObj : JVal → Except String (List (String × JVal))
  | .obj fs => .ok fs
  | _ => .error "TypeError: object is not subscriptable"

/-- Python `d[k]` on a dict: `KeyError` when absent. -/
def objGet (fs : List (String × JVal)) (k : String) : Except String JVal :=
  match findEntry fs k with
  | some v => .ok v
  | none => .error (keyError k)

/-- One entry of the `extra_disks` module parameter. -/
structure ExtraDisk where
  size_gb : Int
  mount_point : String
  deriving Repr, DecidableEq

/-- The seven field assignments performed on `disk_meta['data']` for the
`i`-th (0-based) extra disk, in source order. -/
def setFields (dfs : List (String × JVal)) (size_gb : Int) (i : Nat)
    (disk_id : Int) (mount_point : String) : List (String × JVal) :=
  setEntry (setEntry (setEntry (setEntry (setEntry (setEntry (setEntry dfs
    "capacity" (.int size_gb))
    "label" (.str ("Hard disk " ++ toString (i + 2))))
    "volumeId" (.int ((i : Int) + 1)))
    "id" (.int disk_id))
    "userCreated" (.str "true"))
    "is_clone" (.str "false"))
    "initial_location" (.str mount_point)

/-- The `for i, disk in enumerate(self.extra_disks)` loop: each appended disk
is a deep copy of the base disk (`fs0` top-level fields, `dfs` data fields)
with `disk_id` incremented before each build. -/
def extraDiskList (fs0 dfs : List (String × JVal)) (disk_id : Int) (i : Nat) :
    List ExtraDisk → List JVal
  | [] => []
  | d :: rest =>
    JVal.obj (setEntry fs0 "data"
        (.obj (setFields dfs d.size_gb i (disk_id + 1) d.mount_point)))
      :: extraDiskList fs0 dfs (disk_id + 1) (i + 1) rest

/-- `VRAHelper.customize_template`, as a pure function on the fetched template
JSON.  There is no `try/except` around this code in the source, so a raised
exception is returned as a *raw* `Except.error` (to be distinguished, by the
caller, from a `fail_json` abort). -/
def customize_template (template_json : JVal) (blueprint_instance_id : String)
    (cpu memory : Int) (hostname network_adapter : String)
    (extra_disks : List ExtraDisk) : Except String JVal := do
  let tfs ← asObj template_json
  let dataV ← objGet tfs "data"
  let dfs1 ← asObj dataV
  let instV ← objGet dfs1 blueprint_instance_id
  let ifs ← asObj instV
  let metaV ← objGet ifs "data"
  let mfs ← asObj metaV
  let m1 := setEntry mfs "cpu" (.int cpu)
  let m2 := setEntry m1 "memory" (.int memory)
  let m3 := setEntry m2 "Hostname" (.str hostname)
  let m4 := setEntry m3 "VirtualMachine.Network0.Name" (.str network_adapter)
  let m5 ← if extra_disks.length ≥ 1 then do
      let disksV ← objGet m4 "disks"
      match disksV with
      | .arr disks =>
        match disks with
        | [] => Except.error "IndexError: list index out of range"
        | d0 :: _ => do
          let fs0 ← asObj d0
          let dDataV ← objGet fs0 "data"
          let dfs ← asObj dDataV
          let idV ← objGet dfs "id"
          match idV with
          | .int base_id =>
            Except.ok (setEntry m4 "disks"
              (.arr (disks ++ extraDiskList fs0 dfs base_id 0 extra_disks)))
          | _ => Except.error "TypeError: unsupported operand type(s) for +="
      | _ => Except.error "TypeError: list indices must be integers"
    else Except.ok m4
  Except.ok (.obj (setEntry tfs "data"
    (.obj (setEntry dfs1 blueprint_instance_id
      (.obj (setEntry ifs "data" (.obj m5)))))))

/-- Observer: the disk list of a customized template, reached through
`template['data'][bid]['data']['disks']`. -/
def diskListOf (t : JVal) (bid : String) : Option (List JVal) :=
  match t with
  | .obj tfs =>
    match findEntry tfs "data" with
    | some (.obj d1) =>
      match findEntry d1 bid with
      | some (.obj ifs) =>
        match findEntry ifs "data" with
        | some (.obj mfs) =>
          match findEntry mfs "disks" with
          | some (.arr l) => some l
          | _ => none
        | _ => none
      | _ => none
    | _ => none
  | _ => none

/-- Observer: a field of a disk descriptor's `data` sub-dict. -/
def diskDataField (d : JVal) (key : String) : Option JVal :=
  match d with
  | .obj fs =>
    match findEntry fs "data" with
    | some (.obj g) => findEntry g key
    | _ => none
  | _ => none

/-- Observer: a top-level field of a disk descriptor. -/
def diskTopField (d : JVal) (key : String) : Option JVal :=
  match d with
  | .obj fs => findEntry fs key
  | _ => none

/-- The parsed body of `GET .../requests/{requestId}`: its `stateName` and,
when `requestCompletion` is not `null`, that dict's `completionDetails`. -/
structure PollResp where
  stateName : String
  requestCompletion : Option String
  deriving Repr, DecidableEq

/-- `get_vm_build_status`: `build_explanation` is `""` when
`requestCompletion` is `None`, else its `completionDetails`. -/
def buildExplanation (r : PollResp) : String :=
  match r.requestCompletion with
  | none => ""
  | some d => d

/-- Outcome of the polling `while True:` loop: `break` on success, or a
`module.fail_json(msg)` abort. -/
inductive PollOutcome where
  | success
  | fail (msg : String)
  deriving Repr, DecidableEq

/-- The `fail_json` message of the timeout branch:
`"Failed to create VM in %s seconds" % wait_timeout`. -/
def timeoutMsg (wait_timeout : Int) : String :=
  "Failed to create VM in " ++ toString wait_timeout ++ " seconds"

/-- The polling `while True:` loop of `run_module`, started at iteration `n`
(so `timer = 15 * n`).  `σ k` is the response of the `k`-th
`get_vm_build_status` fetch (`Except.error` = the fetch itself raised, which
`get_vm_build_status` converts to a `fail_json`).  Returns the outcome and
the index of the iteration at which the loop stopped (so `n + 1` fetches
were issued when started at `0`). -/
def pollAux (σ : Nat → Except String PollResp) (wait_timeout : Int) (n : Nat) :
    PollOutcome × Nat :=
  match σ n with
  | .error e => (.fail ("Failed to get VM create status: " ++ e), n)
  | .ok r =>
    if h : (15 * (n : Int)) ≥ wait_timeout then (.fail (timeoutMsg wait_timeout), n)
    else if r.stateName = "Failed" then
      (.fail ("Failed to create VM: " ++ buildExplanation r), n)
    else if r.stateName = "Successful" then (.success, n)
    else pollAux σ wait_timeout (n + 1)
termination_by (wait_timeout - 15 * (n : Int)).toNat
decreasing_by simp_wf; omega

/-- One inventory item from
`GET .../resources/types/Infrastructure.Virtual/?limit=5000`. -/
structure InvItem where
  name : String
  requestId : String
  deriving Repr, DecidableEq

/-- A `resourceData` entry: we model `entry['value']['value']` as `value`. -/
structure RDEntry where
  key : String
  value : String
  deriving Repr, DecidableEq

/-- One item of `GET .../requests/{requestId}/resources`:
`providerBinding.providerRef.label`, the resource `id` (destroy id), and the
`resourceData.entries`. -/
structure ResItem where
  providerLabel : String
  id : String
  entries : List RDEntry
  deriving Repr, DecidableEq

/-- One `catalogItem` of `GET .../entitledCatalogItems`. -/
structure CatalogItem where
  name : String
  id : String
  deriving Repr, DecidableEq

/-- The remote vRA server, as response oracles for each endpoint.  Listing
endpoints hit more than once are indexed by the call number. -/
structure Env where
  /-- `POST /identity/api/tokens` → `.json()['id']` (error = any exception). -/
  authResp : Except String String
  /-- `n`-th call of `GET .../resources/types/Infrastructure.Virtual/` → `content`. -/
  inventoryResp : Nat → Except String (List InvItem)
  /-- `GET .../requests/{rid}/resources` → `content`. -/
  reqResourcesResp : String → Except String (List ResItem)
  /-- `GET .../entitledCatalogItems` → `content`. -/
  catalogResp : Except String (List CatalogItem)
  /-- `GET .../entitledCatalogItems/{cid}/requests/template` → template JSON. -/
  templateResp : String → Except String JVal
  /-- `POST .../entitledCatalogItems/{cid}/requests` → `.json()['id']`. -/
  createResp : Except String String
  /-- `n`-th `GET .../requests/{rid}` (build status poll). -/
  statusResp : Nat → Except String PollResp
  /-- `GET .../resources/{destroy_id}` → `resourceData.entries`. -/
  resourceResp : String → Except String (List RDEntry)

/-- The module parameters (transport credentials are carried but the HTTP
layer itself is abstracted into `Env`). -/
structure Params where
  blueprint_instance_id : String
  blueprint_name : String
  cpu : Int
  extra_disks : List ExtraDisk
  hostname : String
  memory : Int
  network_adapter : String
  vra_hostname : String
  vra_password : String
  vra_tenant : String
  vra_username : String
  wait_timeout : Int

/-- The mutable attributes of a `VRAHelper` instance; `none` models an
attribute that has not been assigned yet (`self.ip` alone is initialized, to
`None`, by the constructor). -/
structure VRAState where
  ip : Option String
  catalog_id : Option String
  request_id : Option String
  destroy_id : Option String
  template_json : Option JVal
  vm_state : Option String

/-- The state right after `VRAHelper.__init__` (before any lookup). -/
def initState : VRAState :=
  { ip := none, catalog_id := none, request_id := none, destroy_id := none,
    template_json := none, vm_state := none }

/-- One observable call to the server (plus a marker for the pure
`customize_template` step, which issues no request). -/
inductive Call where
  | auth
  | inventory (n : Nat)
  | reqResources (rid : String)
  | catalog
  | template (cid : String)
  | customize
  | create
  | status (n : Nat)
  | resource (did : String)
  deriving Repr, DecidableEq

/-- Calls that belong to the creation workflow (`get_catalog_id`,
`get_template_json`, `customize_template`, `create_vm_from_template`). -/
def Call.isCreation : Call → Bool
  | .catalog => true
  | .template _ => true
  | .customize => true
  | .create => true
  | _ => false

/-- The `result` dict returned via `exit_json`; string-valued slots are
`Option String` so that Python `None` (`none`) and `''` (`some ""`) stay
distinct. -/
structure ResultDict where
  changed : Bool
  failed : Bool
  state : Option String
  destroy_id : Option String
  ip : Option String
  hostname : Option String
  deriving Repr, DecidableEq

/-- The seeded `result` dict of `run_module`. -/
def seedResult : ResultDict :=
  { changed := false, failed := false, state := some "", destroy_id := some "",
    ip := some "", hostname := some "" }

/-- How the module run ends: `exit_json(**result)`, `fail_json(msg=...)`, or
an exception that no `try/except` caught (a raw crash). -/
inductive ModuleExit where
  | exitJson (r : ResultDict)
  | failJson (msg : String)
  | exn (e : String)
  deriving Repr, DecidableEq

/-- Whether the run ended in a `fail_json` abort (as opposed to a clean exit
or an uncaught exception). -/
def ModuleExit.isFailJson : ModuleExit → Bool
  | .failJson _ => true
  | _ => false

/-- `VRAHelper.get_auth` (called by the constructor). -/
def get_auth (env : Env) : List Call × Except String Unit :=
  match env.authResp with
  | .error e => ([Call.auth], .error ("Failed to get bearer token: " ++ e))
  | .ok _ => ([Call.auth], .ok ())

/-- The `fail_json` message of `get_vm`'s `except` clause. -/
def vmDetailsMsg (hostname e : String) : String :=
  "Failed to get VM details for '" ++ hostname ++ "': " ++ e

/-- `VRAHelper.get_vm`; `idx` numbers this inventory-listing call. -/
def get_vm (env : Env) (idx : Nat) (p : Params) (st : VRAState) :
    List Call × Except String VRAState :=
  match env.inventoryResp idx with
  | .error e => ([Call.inventory idx], .error (vmDetailsMsg p.hostname e))
  | .ok content =>
    let vms := content.filter (fun i => i.name = p.hostname)
    if vms.length > 1 then
      ([Call.inventory idx],
       .error ("Duplicate VMs with hostname " ++ p.hostname ++ "."))
    else
      match vms with
      | [] => ([Call.inventory idx], .ok st)
      | v :: _ =>
        match env.reqResourcesResp v.requestId with
        | .error e =>
          ([Call.inventory idx, Call.reqResources v.requestId],
           .error (vmDetailsMsg p.hostname e))
        | .ok items =>
          match items.filter
              (fun el => el.providerLabel = "Infrastructure Service") with
          | [] =>
            ([Call.inventory idx, Call.reqResources v.requestId],
             .error (vmDetailsMsg p.hostname "list index out of range"))
          | m :: _ =>
            match m.entries.filter (fun el => el.key = "ip_address") with
            | [] =>
              ([Call.inventory idx, Call.reqResources v.requestId],
               .error (vmDetailsMsg p.hostname "list index out of range"))
            | en :: _ =>
              ([Call.inventory idx, Call.reqResources v.requestId],
               .ok { st with request_id := some v.requestId,
                             destroy_id := some m.id,
                             ip := some en.value })

/-- The `catalog_dict` built by `get_catalog_id`'s `for` loop. -/
def buildCatalogDict (content : List CatalogItem) : List (String × String) :=
  content.foldl (fun d i => setEntry d i.name i.id) []

/-- `VRAHelper.get_catalog_id`. -/
def get_catalog_id (env : Env) (p : Params) (st : VRAState) :
    List Call × Except String VRAState :=
  match env.catalogResp with
  | .error e =>
    ([Call.catalog],
     .error ("Failed to get catalog ID for blueprint " ++ p.blueprint_name
       ++ ": " ++ e))
  | .ok content =>
    match findEntry (buildCatalogDict content) p.blueprint_name with
    | none =>
      ([Call.catalog],
       .error ("Failed to get catalog ID for blueprint " ++ p.blueprint_name
         ++ ": " ++ keyError p.blueprint_name))
    | some cid => ([Call.catalog], .ok { st with catalog_id := some cid })

/-- Python `str(AttributeError(...))` for an attribute never assigned. -/
def noAttr (a : String) : String :=
  "'VRAHelper' object has no attribute '" ++ a ++ "'"

/-- `VRAHelper.get_template_json`. -/
def get_template_json (env : Env) (st : VRAState) :
    List Call × Except String VRAState :=
  match st.catalog_id with
  | none =>
    ([], .error ("Failed to get template JSON for creating the VM: "
      ++ noAttr "catalog_id"))
  | some cid =>
    match env.templateResp cid with
    | .error e =>
      ([Call.template cid],
       .error ("Failed to get template JSON for creating the VM: " ++ e))
    | .ok t => ([Call.template cid], .ok { st with template_json := some t })

/-- `VRAHelper.create_vm_from_template`. -/
def create_vm_from_template (env : Env) (st : VRAState) :
    List Call × Except String VRAState :=
  match env.createResp with
  | .error e => ([Call.create], .error ("Failed to create VM from template: " ++ e))
  | .ok rid => ([Call.create], .ok { st with request_id := some rid })

/-- The `fail_json` message of `get_vm_state`'s `except` clause. -/
def vmStateMsg (hostname e : String) : String :=
  "Failed to get VM state information for '" ++ hostname ++ "': " ++ e

/-- `VRAHelper.get_vm_state`. -/
def get_vm_state (env : Env) (p : Params) (st : VRAState) :
    List Call × Except String VRAState :=
  match st.request_id with
  | none => ([], .error "No request ID to request VM state information for")
  | some _ =>
    match st.destroy_id with
    | none => ([], .error (vmStateMsg p.hostname (noAttr "destroy_id")))
    | some did =>
      match env.resourceResp did with
      | .error e => ([Call.resource did], .error (vmStateMsg p.hostname e))
      | .ok entries =>
        match entries.filter (fun el => el.key = "MachineStatus") with
        | [] =>
          ([Call.resource did],
           .error (vmStateMsg p.hostname "list index out of range"))
        | en :: _ =>
          ([Call.resource did], .ok { st with vm_state := some en.value })

/-- The `status` calls issued by a poll that stopped at iteration `n`. -/
def statusCalls (n : Nat) : List Call := (List.range (n + 1)).map Call.status

/-- The tail of `run_module` shared by both branches: `get_vm_state` and the
`result` assignments, ending in `exit_json(**result)`. -/
def finishRun (env : Env) (p : Params) (st : VRAState) (changed : Bool) :
    List Call × ModuleExit :=
  match get_vm_state env p st with
  | (cs, .error m) => (cs, .failJson m)
  | (cs, .ok st') =>
    (cs, .exitJson { changed := changed, failed := false,
                     state := st'.vm_state, destroy_id := st'.destroy_id,
                     ip := st'.ip, hostname := some p.hostname })

/-- `run_module`: authenticate, look up the VM by hostname, in check mode
report whether a change would occur, otherwise create the VM when absent
(catalog lookup, template fetch/customize, creation request, poll, re-lookup)
and finally report state/destroy id/ip/hostname.  The exception raised by a
malformed template inside `customize_template` is uncaught (`.exn`). -/
def run_module (env : Env) (p : Params) (check_mode : Bool) :
    List Call × ModuleExit :=
  match get_auth env with
  | (c1, .error m) => (c1, .failJson m)
  | (c1, .ok _) =>
    match get_vm env 0 p initState with
    | (c2, .error m) => (c1 ++ c2, .failJson m)
    | (c2, .ok st1) =>
      if check_mode then
        (c1 ++ c2, .exitJson { seedResult with changed := st1.ip.isNone })
      else if st1.ip.isNone then
        match get_catalog_id env p st1 with
        | (c3, .error m) => (c1 ++ c2 ++ c3, .failJson m)
        | (c3, .ok st2) =>
          match get_template_json env st2 with
          | (c4, .error m) => (c1 ++ c2 ++ c3 ++ c4, .failJson m)
          | (c4, .ok st3) =>
            match st3.template_json with
            | none => (c1 ++ c2 ++ c3 ++ c4, .exn (noAttr "template_json"))
            | some tj =>
              match customize_template tj p.blueprint_instance_id p.cpu
                  p.memory p.hostname p.network_adapter p.extra_disks with
              | .error e =>
                (c1 ++ c2 ++ c3 ++ c4 ++ [Call.customize], .exn e)
              | .ok tj2 =>
                match create_vm_from_template env
                    { st3 with template_json := some tj2 } with
                | (c5, .error m) =>
                  (c1 ++ c2 ++ c3 ++ c4 ++ [Call.customize] ++ c5, .failJson m)
                | (c5, .ok st4) =>
                  match pollAux env.statusResp p.wait_timeout 0 with
                  | (.fail m, n) =>
                    (c1 ++ c2 ++ c3 ++ c4 ++ [Call.customize] ++ c5
                      ++ statusCalls n, .failJson m)
                  | (.success, n) =>
                    match get_vm env 1 p st4 with
                    | (c6, .error m) =>
                      (c1 ++ c2 ++ c3 ++ c4 ++ [Call.customize] ++ c5
                        ++ statusCalls n ++ c6, .failJson m)
                    | (c6, .ok st5) =>
                      let (c7, r) := finishRun env p st5 true
                      (c1 ++ c2 ++ c3 ++ c4 ++ [Call.customize] ++ c5
                        ++ statusCalls n ++ c6 ++ c7, r)
      else
        let (c7, r) := finishRun env p st1 false
        (c1 ++ c2 ++ c7, r)

/-! ### Concrete sample inputs used to exercise the theorems -/

/-- Sample base-disk `data` sub-dict. -/
def dfsW : List (String × JVal) :=
  [("id", .int 5), ("capacity", .int 40), ("label", .str "Hard disk 1")]

/-- Sample base disk (`Disk0`). -/
def fs0W : List (String × JVal) := [("type", .str "disk"), ("data", .obj dfsW)]

/-- Sample per-resource field dict of the template. -/
def mfsW : List (String × JVal) :=
  [("cpu", .int 1), ("disks", .arr [.obj fs0W])]

/-- Sample blueprint-instance dict. -/
def ifsW : List (String × JVal) := [("data", .obj mfsW)]

/-- Sample template `data` dict. -/
def dfs1W : List (String × JVal) := [("bi", .obj ifsW)]

/-- Sample full template dict. -/
def tfsW : List (String × JVal) := [("data", .obj dfs1W)]

/-- Sample `extra_disks` parameter (the spec's end-to-end scenario). -/
def edW : List ExtraDisk := [⟨60, "/mnt1"⟩, ⟨80, "/mnt2"⟩]

/-- Sample module parameters. -/
def pW : Params :=
  { blueprint_instance_id := "bi", blueprint_name := "Linux", cpu := 2,
    extra_disks := edW, hostname := "vm1", memory := 4096,
    network_adapter := "net", vra_hostname := "vra.local", vra_password := "pw",
    vra_tenant := "tenant", vra_username := "user", wait_timeout := 600 }

/-- A server on which `vm1` does not exist and everything succeeds. -/
def envW : Env :=
  { authResp := .ok "tok",
    inventoryResp := fun _ => .ok [],
    reqResourcesResp := fun _ => .error "unused",
    catalogResp := .ok [⟨"Linux", "cid1"⟩],
    templateResp := fun _ => .ok (.obj tfsW),
    createResp := .ok "rid1",
    statusResp := fun _ => .ok ⟨"Successful", none⟩,
    resourceResp := fun _ => .error "unused" }

/-- A server on which `vm1` exists once with an `ip_address` entry. -/
def envOne : Env :=
  { authResp := .ok "tok",
    inventoryResp := fun _ => .ok [⟨"vm0", "r0"⟩, ⟨"vm1", "r1"⟩],
    reqResourcesResp := fun _ =>
      .ok [⟨"Infrastructure Service", "d1",
            [⟨"other", "x"⟩, ⟨"ip_address", "10.0.0.7"⟩]⟩],
    catalogResp := .error "unused",
    templateResp := fun _ => .error "unused",
    createResp := .error "unused",
    statusResp := fun _ => .error "unused",
    resourceResp := fun _ => .ok [⟨"MachineStatus", "On"⟩] }

/-- A server on which `vm1` exists twice (duplicate hostname). -/
def envDup : Env :=
  { envOne with inventoryResp := fun _ => .ok [⟨"vm1", "r1"⟩, ⟨"vm1", "r2"⟩] }

/-- A server on which `vm1` exists once but its infrastructure resource has
no `ip_address` entry yet. -/
def envNoIp : Env :=
  { envOne with
    reqResourcesResp :=
      fun _ => Except.ok [⟨"Infrastructure Service", "d1", [⟨"other", "x"⟩]⟩] }

/-- A server whose template response is malformed (no `data` key), so that
`customize_template` raises. -/
def envBadTemplate : Env :=
  { envW with templateResp := fun _ => .ok (.obj []) }

/-- A server whose authentication raises. -/
def envAuthFail : Env := { envW with authResp := .error "boom" }

/-- A server whose entitled-catalog listing holds two items named `Linux`. -/
def envCatDup : Env :=
  { envW with
    catalogResp :=
      Except.ok [⟨"Linux", "cid1"⟩, ⟨"Other", "cid2"⟩, ⟨"Linux", "cid3"⟩] }

/-- A status trace that reports `Successful` immediately. -/
def trW : Nat → Except String PollResp := fun _ => .ok ⟨"Successful", none⟩

/-- A status trace that stays `InProgress` forever. -/
def trInProgress : Nat → Except String PollResp :=
  fun _ => .ok ⟨"InProgress", none⟩

/-- A status trace that reports `Failed` immediately, with completion
details. -/
def trFailed : Nat → Except String PollResp :=
  fun _ => .ok ⟨"Failed", some "quota exceeded"⟩

/-! ### Association-list (Python dict) lemmas -/

theorem findEntry_setEntry_self {α : Type} (d : List (String × α)) (key : String) (v : α) :
    findEntry (setEntry d key v) key = some v := by
  induction d with
  | nil => simp [setEntry, findEntry]
  | cons p rest ih =>
    by_cases h : p.1 = key <;> simp [setEntry, findEntry, h, ih]

theorem findEntry_setEntry_ne {α : Type} (d : List (String × α)) (k key : String) (v : α)
    (h : k ≠ key) : findEntry (setEntry d key v) k = findEntry d k := by
  induction d with
  | nil => simp [setEntry, findEntry, Ne.symm h]
  | cons p rest ih =>
    by_cases hp : p.1 = key <;>
      simp [setEntry, findEntry, hp, ih, Ne.symm h]

/-! ### Template customization lemmas -/

theorem customize_template_ok
    (tfs dfs1 ifs mfs fs0 dfs : List (String × JVal)) (base_id : Int)
    (bid hn na : String) (cpu memory : Int) (ed : List ExtraDisk) (ds : List JVal)
    (h1 : findEntry tfs "data" = some (.obj dfs1))
    (h2 : findEntry dfs1 bid = some (.obj ifs))
    (h3 : findEntry ifs "data" = some (.obj mfs))
    (h4 : findEntry mfs "disks" = some (.arr (JVal.obj fs0 :: ds)))
    (h5 : findEntry fs0 "data" = some (.obj dfs))
    (h6 : findEntry dfs "id" = some (.int base_id))
    (h7 : 1 ≤ ed.length) :
    customize_template (.obj tfs) bid cpu memory hn na ed
      = .ok (.obj (setEntry tfs "data" (.obj (setEntry dfs1 bid (.obj (setEntry ifs "data"
          (.obj (setEntry (setEntry (setEntry (setEntry (setEntry mfs "cpu" (.int cpu))
            "memory" (.int memory)) "Hostname" (.str hn))
            "VirtualMachine.Network0.Name" (.str na)) "disks"
            (.arr ((JVal.obj fs0 :: ds) ++ extraDiskList fs0 dfs base_id 0 ed)))))))))) := by
  have hd : findEntry (setEntry (setEntry (setEntry (setEntry mfs "cpu" (.int cpu))
      "memory" (.int memory)) "Hostname" (.str hn))
      "VirtualMachine.Network0.Name" (.str na)) "disks" = some (.arr (JVal.obj fs0 :: ds)) := by
    rw [findEntry_setEntry_ne _ _ _ _ (by decide), findEntry_setEntry_ne _ _ _ _ (by decide),
        findEntry_setEntry_ne _ _ _ _ (by decide), findEntry_setEntry_ne _ _ _ _ (by decide), h4]
  simp [customize_template, asObj, objGet, h1, h2, h3, hd, h5, h6, h7,
    Except.instMonad, Except.bind]

theorem extraDiskList_length (fs0 dfs : List (String × JVal)) :
    ∀ (ed : List ExtraDisk) (b : Int) (i : Nat),
      (extraDiskList fs0 dfs b i ed).length = ed.length := by
  intro ed
  induction ed with
  | nil => intro b i; rfl
  | cons d rest ih => intro b i; simp [extraDiskList, ih]

theorem extraDiskList_get? (fs0 dfs : List (String × JVal)) :
    ∀ (ed : List ExtraDisk) (b : Int) (i j : Nat) (d : ExtraDisk), ed[j]? = some d →
      (extraDiskList fs0 dfs b i ed)[j]? =
        some (JVal.obj (setEntry fs0 "data" (.obj (setFields dfs d.size_gb (i + j)
          (b + (j : Int) + 1) d.mount_point)))) := by
  intro ed
  induction ed with
  | nil => intro b i j d h; simp at h
  | cons d0 rest ih =>
    intro b i j d h
    cases j with
    | zero =>
      simp at h
      subst h
      simp [extraDiskList]
    | succ j =>
      simp at h
      have e1 : i + 1 + j = i + (j + 1) := by omega
      have e2 : (b + 1) + (j : Int) + 1 = b + ((j + 1 : Nat) : Int) + 1 := by
        push_cast; ring
      have hrec := ih (b + 1) (i + 1) j d h
      rw [e1, e2] at hrec
      simpa [extraDiskList] using hrec


/-- C1: for N >= 1 extra disks, `customize_template` appends the disks in
input order, so the disk list has length N+1 with the base disk unmodified at
index 0, and the k-th appended disk (1-based) is a deep copy of the base disk
whose capacity is the k-th input's size_gb, label is "Hard disk k+1",
volumeId is k, id is the base disk's id plus k, userCreated is "true",
is_clone is "false", and initial_location is the k-th input's mount_point
(below, `j = k - 1` is the 0-based index). -/
theorem extra_disks_appended
    (tfs dfs1 ifs mfs fs0 dfs : List (String × JVal)) (base_id : Int)
    (bid hn na : String) (cpu memory : Int) (ed : List ExtraDisk)
    (h1 : findEntry tfs "data" = some (.obj dfs1))
    (h2 : findEntry dfs1 bid = some (.obj ifs))
    (h3 : findEntry ifs "data" = some (.obj mfs))
    (h4 : findEntry mfs "disks" = some (.arr [JVal.obj fs0]))
    (h5 : findEntry fs0 "data" = some (.obj dfs))
    (h6 : findEntry dfs "id" = some (.int base_id))
    (h7 : 1 ≤ ed.length) :
    ∃ t L, customize_template (.obj tfs) bid cpu memory hn na ed = .ok t
      ∧ diskListOf t bid = some L
      ∧ L.length = ed.length + 1
      ∧ L[0]? = some (JVal.obj fs0)
      ∧ ∀ (j : Nat) (d : ExtraDisk), ed[j]? = some d →
          ∃ dj, L[j + 1]? = some dj
            ∧ diskDataField dj "capacity" = some (.int d.size_gb)
            ∧ diskDataField dj "label" = some (.str ("Hard disk " ++ toString (j + 2)))
            ∧ diskDataField dj "volumeId" = some (.int ((j : Int) + 1))
            ∧ diskDataField dj "id" = some (.int (base_id + (j : Int) + 1))
            ∧ diskDataField dj "userCreated" = some (.str "true")
            ∧ diskDataField dj "is_clone" = some (.str "false")
            ∧ diskDataField dj "initial_location" = some (.str d.mount_point)
            ∧ (∀ k, k ≠ "capacity" → k ≠ "label" → k ≠ "volumeId" → k ≠ "id" →
                k ≠ "userCreated" → k ≠ "is_clone" → k ≠ "initial_location" →
                diskDataField dj k = findEntry dfs k)
            ∧ (∀ k, k ≠ "data" → diskTopField dj k = findEntry fs0 k) := by
  have hc := customize_template_ok tfs dfs1 ifs mfs fs0 dfs base_id bid hn na
    cpu memory ed [] h1 h2 h3 h4 h5 h6 h7
  refine ⟨_, JVal.obj fs0 :: extraDiskList fs0 dfs base_id 0 ed, hc, ?_, ?_, ?_, ?_⟩
  · simp [diskListOf, findEntry_setEntry_self]
  · simp [extraDiskList_length]
  · simp
  · intro j d hj
    refine ⟨JVal.obj (setEntry fs0 "data" (.obj (setFields dfs d.size_gb (0 + j)
      (base_id + (j : Int) + 1) d.mount_point))), ?_, ?_⟩
    · simpa using extraDiskList_get? fs0 dfs ed base_id 0 j d hj
    · refine ⟨?_, ?_, ?_, ?_, ?_, ?_, ?_, ?_, ?_⟩ <;>
        simp [diskDataField, diskTopField, findEntry_setEntry_self, setFields,
          findEntry_setEntry_ne]
      · intro k k1 k2 k3 k4 k5 k6 k7
        rw [findEntry_setEntry_ne _ _ _ _ k7, findEntry_setEntry_ne _ _ _ _ k6,
            findEntry_setEntry_ne _ _ _ _ k5, findEntry_setEntry_ne _ _ _ _ k4,
            findEntry_setEntry_ne _ _ _ _ k3, findEntry_setEntry_ne _ _ _ _ k2,
            findEntry_setEntry_ne _ _ _ _ k1]
      · intro k hk
        rw [findEntry_setEntry_ne _ _ _ _ hk]



/-- Witness for C1 at the spec's end-to-end scenario (2 extra disks). -/
theorem extra_disks_appended_witness :
    ∃ t L, customize_template (.obj tfsW) "bi" 2 4096 "vm1" "net" edW = .ok t
      ∧ diskListOf t "bi" = some L
      ∧ L.length = edW.length + 1
      ∧ L[0]? = some (JVal.obj fs0W)
      ∧ ∀ (j : Nat) (d : ExtraDisk), edW[j]? = some d →
          ∃ dj, L[j + 1]? = some dj
            ∧ diskDataField dj "capacity" = some (.int d.size_gb)
            ∧ diskDataField dj "label" = some (.str ("Hard disk " ++ toString (j + 2)))
            ∧ diskDataField dj "volumeId" = some (.int ((j : Int) + 1))
            ∧ diskDataField dj "id" = some (.int (5 + (j : Int) + 1))
            ∧ diskDataField dj "userCreated" = some (.str "true")
            ∧ diskDataField dj "is_clone" = some (.str "false")
            ∧ diskDataField dj "initial_location" = some (.str d.mount_point)
            ∧ (∀ k, k ≠ "capacity" → k ≠ "label" → k ≠ "volumeId" → k ≠ "id" →
                k ≠ "userCreated" → k ≠ "is_clone" → k ≠ "initial_location" →
                diskDataField dj k = findEntry dfsW k)
            ∧ (∀ k, k ≠ "data" → diskTopField dj k = findEntry fs0W k) :=
  extra_disks_appended tfsW dfs1W ifsW mfsW fs0W dfsW 5 "bi" "vm1" "net" 2 4096 edW
    rfl rfl rfl rfl rfl rfl (by decide)



theorem pollResp_sticky_propagate (σ : Nat → Except String PollResp)
    (hsticky : ∀ n r, σ n = .ok r →
      r.stateName = "Failed" ∨ r.stateName = "Successful" → σ (n + 1) = .ok r)
    (m : Nat) (r : PollResp) (hm : σ m = .ok r)
    (ht : r.stateName = "Failed" ∨ r.stateName = "Successful") :
    ∀ k, m ≤ k → σ k = .ok r := by
  intro k hk
  induction k, hk using Nat.le_induction with
  | base => exact hm
  | succ n hn ih => exact hsticky n r ih ht

theorem pollAux_success_exists (σ : Nat → Except String PollResp) (T : Int)
    (hok : ∀ n, ∃ r, σ n = .ok r) :
    ∀ (k m : Nat), (T - 15 * (m : Int)).toNat ≤ k →
      (pollAux σ T m).1 = PollOutcome.success →
      ∃ (n : Nat) (r : PollResp),
        (15 * (n : Int)) < T ∧ σ n = .ok r ∧ r.stateName = "Successful" := by
  intro k
  induction k with
  | zero =>
    intro m hk hs
    obtain ⟨r, hr⟩ := hok m
    rw [pollAux, hr] at hs
    dsimp only at hs
    rw [dif_pos (by omega : (15 * (m : Int)) ≥ T)] at hs
    simp at hs
  | succ k ih =>
    intro m hk hs
    obtain ⟨r, hr⟩ := hok m
    rw [pollAux, hr] at hs
    dsimp only at hs
    by_cases hT : (15 * (m : Int)) ≥ T
    · rw [dif_pos hT] at hs; simp at hs
    · rw [dif_neg hT] at hs
      by_cases hF : r.stateName = "Failed"
      · rw [if_pos hF] at hs; simp at hs
      · rw [if_neg hF] at hs
        by_cases hS : r.stateName = "Successful"
        · exact ⟨m, r, by omega, hr, hS⟩
        · rw [if_neg hS] at hs
          exact ih (m + 1) (by push_cast; omega) hs

theorem pollAux_success_at (σ : Nat → Except String PollResp) (T : Int)
    (m : Nat) (r : PollResp) (hm : σ m = .ok r)
    (hS : r.stateName = "Successful") (hT : (15 * (m : Int)) < T) :
    (pollAux σ T m).1 = PollOutcome.success := by
  rw [pollAux, hm]
  dsimp only
  rw [dif_neg (by omega : ¬ (15 * (m : Int)) ≥ T)]
  rw [if_neg (by rw [hS]; decide), if_pos hS]

theorem pollAux_reaches_success (σ : Nat → Except String PollResp) (T : Int)
    (hok : ∀ n, ∃ r, σ n = .ok r)
    (hsticky : ∀ n r, σ n = .ok r →
      r.stateName = "Failed" ∨ r.stateName = "Successful" → σ (n + 1) = .ok r)
    (n : Nat) (r : PollResp) (hn : σ n = .ok r)
    (hS : r.stateName = "Successful") (hT : (15 * (n : Int)) < T) :
    ∀ (j m : Nat), n - m ≤ j → m ≤ n → (pollAux σ T m).1 = PollOutcome.success := by
  intro j
  induction j with
  | zero =>
    intro m hj hm
    have hmn : m = n := by omega
    subst hmn
    exact pollAux_success_at σ T m r hn hS hT
  | succ j ih =>
    intro m hj hm
    rcases Nat.eq_or_lt_of_le hm with heq | hlt
    · subst heq
      exact pollAux_success_at σ T m r hn hS hT
    · obtain ⟨r', hr'⟩ := hok m
      have hmT : (15 * (m : Int)) < T := by
        have hc : (m : Int) < (n : Int) := by exact_mod_cast hlt
        omega
      by_cases hF : r'.stateName = "Failed"
      · exfalso
        have hp := pollResp_sticky_propagate σ hsticky m r' hr' (Or.inl hF) n (by omega)
        rw [hn] at hp
        injection hp with hrr
        rw [hrr, hF] at hS
        exact absurd hS (by decide)
      · by_cases hS' : r'.stateName = "Successful"
        · exact pollAux_success_at σ T m r' hr' hS' hmT
        · rw [pollAux, hr']
          dsimp only
          rw [dif_neg (by omega : ¬ (15 * (m : Int)) ≥ T)]
          rw [if_neg hF, if_neg hS']
          exact ih (m + 1) (by omega) (by omega)

theorem pollAux_timeout_of_inprogress (σ : Nat → Except String PollResp) (T : Int)
    (hok : ∀ n, ∃ r, σ n = .ok r)
    (hnp : ∀ (n : Nat) (r : PollResp), (15 * (n : Int)) < T → σ n = .ok r →
      r.stateName ≠ "Failed" ∧ r.stateName ≠ "Successful") :
    ∀ (k m : Nat), (T - 15 * (m : Int)).toNat ≤ k →
      (pollAux σ T m).1 = PollOutcome.fail (timeoutMsg T) := by
  intro k
  induction k with
  | zero =>
    intro m hk
    obtain ⟨r, hr⟩ := hok m
    rw [pollAux, hr]
    dsimp only
    rw [dif_pos (by omega : (15 * (m : Int)) ≥ T)]
  | succ k ih =>
    intro m hk
    obtain ⟨r, hr⟩ := hok m
    rw [pollAux, hr]
    dsimp only
    by_cases hT : (15 * (m : Int)) ≥ T
    · rw [dif_pos hT]
    · rw [dif_neg hT]
      obtain ⟨hF, hS⟩ := hnp m r (by omega) hr
      rw [if_neg hF, if_neg hS]
      exact ih (m + 1) (by push_cast; omega)

theorem pollAux_fail_at (σ : Nat → Except String PollResp) (T : Int)
    (m : Nat) (r : PollResp) (hm : σ m = .ok r)
    (hF : r.stateName = "Failed") (hT : (15 * (m : Int)) < T) :
    (pollAux σ T m).1 = PollOutcome.fail ("Failed to create VM: " ++ buildExplanation r) := by
  rw [pollAux, hm]
  dsimp only
  rw [dif_neg (by omega : ¬ (15 * (m : Int)) ≥ T)]
  rw [if_pos hF]

theorem pollAux_fail_of_failed (σ : Nat → Except String PollResp) (T : Int)
    (hok : ∀ n, ∃ r, σ n = .ok r)
    (hsticky : ∀ n r, σ n = .ok r →
      r.stateName = "Failed" ∨ r.stateName = "Successful" → σ (n + 1) = .ok r)
    (n : Nat) (r : PollResp) (hn : σ n = .ok r)
    (hF : r.stateName = "Failed") (hT : (15 * (n : Int)) < T) :
    ∀ (j m : Nat), n - m ≤ j → m ≤ n →
      (pollAux σ T m).1 = PollOutcome.fail ("Failed to create VM: " ++ buildExplanation r) := by
  intro j
  induction j with
  | zero =>
    intro m hj hm
    have hmn : m = n := by omega
    subst hmn
    exact pollAux_fail_at σ T m r hn hF hT
  | succ j ih =>
    intro m hj hm
    rcases Nat.eq_or_lt_of_le hm with heq | hlt
    · subst heq
      exact pollAux_fail_at σ T m r hn hF hT
    · obtain ⟨r', hr'⟩ := hok m
      have hmT : (15 * (m : Int)) < T := by
        have hc : (m : Int) < (n : Int) := by exact_mod_cast hlt
        omega
      by_cases hF' : r'.stateName = "Failed"
      · have hp := pollResp_sticky_propagate σ hsticky m r' hr' (Or.inl hF') n (by omega)
        rw [hn] at hp
        injection hp with hrr
        rw [hrr]
        exact pollAux_fail_at σ T m r' hr' hF' hmT
      · by_cases hS' : r'.stateName = "Successful"
        · exfalso
          have hp := pollResp_sticky_propagate σ hsticky m r' hr' (Or.inr hS') n (by omega)
          rw [hn] at hp
          injection hp with hrr
          rw [hrr, hS'] at hF
          exact absurd hF (by decide)
        · rw [pollAux, hr']
          dsimp only
          rw [dif_neg (by omega : ¬ (15 * (m : Int)) ≥ T)]
          rw [if_neg hF', if_neg hS']
          exact ih (m + 1) (by omega) (by omega)



/-- C2: the polling loop terminates with success iff the server status
becomes `Successful` at a poll with elapsed time strictly below the timeout;
it times out when the status stays in progress; and a `Failed` status seen
before the timeout aborts with a message surfacing the server's completion
explanation.  (`σ` must be a coherent server trace: every fetch succeeds and
a terminal status persists.) -/
theorem poll_loop_contract (σ : Nat → Except String PollResp) (T : Int)
    (hok : ∀ n, ∃ r, σ n = .ok r)
    (hsticky : ∀ n r, σ n = .ok r →
      r.stateName = "Failed" ∨ r.stateName = "Successful" → σ (n + 1) = .ok r) :
    ((pollAux σ T 0).1 = PollOutcome.success ↔
      ∃ (n : Nat) (r : PollResp),
        (15 * (n : Int)) < T ∧ σ n = .ok r ∧ r.stateName = "Successful")
    ∧ ((∀ (n : Nat) (r : PollResp), (15 * (n : Int)) < T → σ n = .ok r →
          r.stateName ≠ "Failed" ∧ r.stateName ≠ "Successful") →
        (pollAux σ T 0).1 = PollOutcome.fail (timeoutMsg T))
    ∧ (∀ (n : Nat) (r : PollResp), (15 * (n : Int)) < T → σ n = .ok r →
        r.stateName = "Failed" →
        (pollAux σ T 0).1 =
          PollOutcome.fail ("Failed to create VM: " ++ buildExplanation r)) := by
  refine ⟨⟨fun hs => pollAux_success_exists σ T hok T.toNat 0 (by omega) hs, ?_⟩,
    fun hnp => pollAux_timeout_of_inprogress σ T hok hnp T.toNat 0 (by omega),
    fun n r hT hn hF =>
      pollAux_fail_of_failed σ T hok hsticky n r hn hF hT n 0 (by omega) (by omega)⟩
  rintro ⟨n, r, hT, hn, hS⟩
  exact pollAux_reaches_success σ T hok hsticky n r hn hS hT n 0 (by omega) (by omega)

/-- Witness for C2: a trace that is immediately `Successful` with timeout 600
makes the loop succeed. -/
theorem poll_loop_contract_witness : (pollAux trW 600 0).1 = PollOutcome.success :=
  ((poll_loop_contract trW 600 (fun _ => ⟨⟨"Successful", none⟩, rfl⟩)
      (fun _ _ h _ => h)).1).mpr
    ⟨0, ⟨"Successful", none⟩, by norm_num, rfl, rfl⟩

/-- C9: the timeout check precedes the status check: at any poll with
`timer >= wait_timeout` the loop fails with the timeout message regardless of
the fetched status; hence for `wait_timeout <= 0` it fails with the timeout
message at iteration 0, i.e. after exactly one status fetch. -/
theorem poll_timeout_precedence (σ : Nat → Except String PollResp) (T : Int)
    (n : Nat) (r : PollResp) (h : σ n = .ok r) (hT : T ≤ 15 * (n : Int)) :
    pollAux σ T n = (PollOutcome.fail (timeoutMsg T), n)
    ∧ (∀ r0, σ 0 = .ok r0 → T ≤ 0 →
        pollAux σ T 0 = (PollOutcome.fail (timeoutMsg T), 0)) := by
  constructor
  · rw [pollAux, h]
    dsimp only
    rw [dif_pos (by omega : (15 * (n : Int)) ≥ T)]
  · intro r0 h0 hT0
    rw [pollAux, h0]
    dsimp only
    rw [dif_pos (by simpa using hT0 : (15 * ((0 : Nat) : Int)) ≥ T)]

/-- Witness for C9: with `wait_timeout = 0` the loop fails with the timeout
message at the very first poll even though that poll reports `Successful`. -/
theorem poll_timeout_precedence_witness :
    pollAux trW 0 0 = (PollOutcome.fail (timeoutMsg 0), 0) :=
  (poll_timeout_precedence trW 0 0 ⟨"Successful", none⟩ rfl (by norm_num)).1



/-- C3: in check mode with zero hostname matches the module exits with
`changed = true` having issued only the auth and inventory calls (no catalog
lookup, template fetch, customization, or creation request). -/
theorem checkmode_absent_reports_changed (env : Env) (p : Params) (tok : String)
    (content : List InvItem)
    (hauth : env.authResp = .ok tok)
    (hinv : env.inventoryResp 0 = .ok content)
    (hzero : content.filter (fun i => i.name = p.hostname) = []) :
    run_module env p true =
      ([Call.auth, Call.inventory 0],
       .exitJson { seedResult with changed := true }) := by
  simp [run_module, get_auth, hauth, get_vm, hinv, hzero, initState]

/-- Witness for C3 on a concrete empty inventory. -/
theorem checkmode_absent_reports_changed_witness :
    run_module envW pW true =
      ([Call.auth, Call.inventory 0],
       .exitJson { seedResult with changed := true }) :=
  checkmode_absent_reports_changed envW pW "tok" [] rfl rfl rfl

/-- C5: with two or more exact hostname matches the run fails with the
duplicate-hostname message right after the inventory listing (no per-request
resource fetch), in or out of check mode. -/
theorem duplicate_hostname_fails (env : Env) (p : Params) (check_mode : Bool)
    (tok : String) (content : List InvItem) (v1 v2 : InvItem) (rest : List InvItem)
    (hauth : env.authResp = .ok tok)
    (hinv : env.inventoryResp 0 = .ok content)
    (hdup : content.filter (fun i => i.name = p.hostname) = v1 :: v2 :: rest) :
    run_module env p check_mode =
      ([Call.auth, Call.inventory 0],
       .failJson ("Duplicate VMs with hostname " ++ p.hostname ++ ".")) := by
  simp [run_module, get_auth, hauth, get_vm, hinv, hdup]

/-- Witness for C5 on a concrete inventory holding `vm1` twice. -/
theorem duplicate_hostname_fails_witness :
    run_module envDup pW false =
      ([Call.auth, Call.inventory 0],
       .failJson ("Duplicate VMs with hostname " ++ pW.hostname ++ ".")) :=
  duplicate_hostname_fails envDup pW false "tok" [⟨"vm1", "r1"⟩, ⟨"vm1", "r2"⟩]
    ⟨"vm1", "r1"⟩ ⟨"vm1", "r2"⟩ [] rfl rfl rfl



theorem get_vm_calls (env : Env) (idx : Nat) (p : Params) (st : VRAState) :
    ∀ c ∈ (get_vm env idx p st).1,
      c = Call.inventory idx ∨ ∃ rid, c = Call.reqResources rid := by
  cases henv : env.inventoryResp idx with
  | error e => simp [get_vm, henv]
  | ok content =>
    simp only [get_vm, henv]
    split
    · simp
    · split
      · simp
      · split
        · simp
        · split
          · simp
          · split <;> simp

theorem get_vm_state_calls (env : Env) (p : Params) (st : VRAState) :
    ∀ c ∈ (get_vm_state env p st).1, ∃ d, c = Call.resource d := by
  unfold get_vm_state
  split
  · simp
  · split
    · simp
    · split
      · simp
      · split <;> simp

theorem finishRun_fst (env : Env) (p : Params) (st : VRAState) (ch : Bool) :
    (finishRun env p st ch).1 = (get_vm_state env p st).1 := by
  rcases h : get_vm_state env p st with ⟨cs, r⟩
  cases r <;> simp [finishRun, h]

theorem get_vm_ok_ip (env : Env) (idx : Nat) (p : Params) (st : VRAState)
    (content : List InvItem) (v : InvItem) (cs : List Call) (st' : VRAState)
    (hinv : env.inventoryResp idx = .ok content)
    (hone : content.filter (fun i => i.name = p.hostname) = [v])
    (hok : get_vm env idx p st = (cs, .ok st')) :
    ∃ s, st'.ip = some s := by
  simp only [get_vm, hinv, hone] at hok
  norm_num at hok
  split at hok
  · simp at hok
  · split at hok
    · simp at hok
    · split at hok
      · simp at hok
      · injection hok with h1 h2
        injection h2 with h3
        exact ⟨_, by rw [← h3]⟩



/-- C4: with exactly one hostname match, no creation call (catalog lookup,
template fetch, customization, creation request) is ever issued, in or out of
check mode. -/
theorem single_match_no_creation (env : Env) (p : Params) (check_mode : Bool)
    (tok : String) (content : List InvItem) (v : InvItem)
    (hauth : env.authResp = .ok tok)
    (hinv : env.inventoryResp 0 = .ok content)
    (hone : content.filter (fun i => i.name = p.hostname) = [v]) :
    ∀ c ∈ (run_module env p check_mode).1, c.isCreation = false := by
  rcases hvm : get_vm env 0 p initState with ⟨cs, r⟩
  have hcs : ∀ c ∈ cs, c.isCreation = false := by
    intro c hc
    rcases get_vm_calls env 0 p initState c (by rw [hvm]; exact hc) with rfl | ⟨rid, rfl⟩ <;> rfl
  cases r with
  | error m =>
    have hrun : run_module env p check_mode = (Call.auth :: cs, .failJson m) := by
      simp [run_module, get_auth, hauth, hvm]
    rw [hrun]
    intro c hc
    rcases List.mem_cons.mp hc with rfl | hc
    · rfl
    · exact hcs c hc
  | ok st1 =>
    obtain ⟨s, hip⟩ := get_vm_ok_ip env 0 p initState content v cs st1 hinv hone hvm
    cases check_mode with
    | true =>
      have hrun : run_module env p true =
          (Call.auth :: cs, .exitJson { seedResult with changed := st1.ip.isNone }) := by
        simp [run_module, get_auth, hauth, hvm]
      rw [hrun]
      intro c hc
      rcases List.mem_cons.mp hc with rfl | hc
      · rfl
      · exact hcs c hc
    | false =>
      have hrun : (run_module env p false).1 =
          Call.auth :: (cs ++ (finishRun env p st1 false).1) := by
        simp [run_module, get_auth, hauth, hvm, hip]
      intro c hc
      rw [hrun] at hc
      rcases List.mem_cons.mp hc with rfl | hc
      · rfl
      · rcases List.mem_append.mp hc with hc | hc
        · exact hcs c hc
        · rw [finishRun_fst] at hc
          obtain ⟨d, rfl⟩ := get_vm_state_calls env p st1 c hc
          rfl

/-- Witness for C4 on a concrete inventory holding `vm1` once. -/
theorem single_match_no_creation_witness :
    ((run_module envOne pW false).1.all (fun c => !c.isCreation)) = true := by
  rw [List.all_eq_true]
  intro c hc
  have hcc := single_match_no_creation envOne pW false "tok"
    [⟨"vm0", "r0"⟩, ⟨"vm1", "r1"⟩] ⟨"vm1", "r1"⟩ rfl rfl rfl c hc
  simp [hcc]

/-- C10: in check mode the module always exits with the seeded result values
(state, destroy id, ip and hostname all the empty string), no matter whether
the VM exists; only `changed` varies, and no state lookup is performed. -/
theorem checkmode_reports_seeded (env : Env) (p : Params) (tok : String)
    (cs : List Call) (st1 : VRAState)
    (hauth : env.authResp = .ok tok)
    (hvm : get_vm env 0 p initState = (cs, .ok st1)) :
    run_module env p true =
      (Call.auth :: cs,
       .exitJson { changed := st1.ip.isNone, failed := false, state := some "",
                   destroy_id := some "", ip := some "", hostname := some "" })
    ∧ ∀ d, Call.resource d ∉ (run_module env p true).1 := by
  have hrun : run_module env p true =
      (Call.auth :: cs,
       .exitJson { changed := st1.ip.isNone, failed := false, state := some "",
                   destroy_id := some "", ip := some "", hostname := some "" }) := by
    simp [run_module, get_auth, hauth, hvm, seedResult]
  refine ⟨hrun, fun d hd => ?_⟩
  rw [hrun] at hd
  rcases List.mem_cons.mp hd with h | h
  · simp at h
  · rcases get_vm_calls env 0 p initState (Call.resource d) (by rw [hvm]; exact h)
      with h' | ⟨rid, h'⟩ <;> simp at h'

/-- Witness for C10 on a server where `vm1` already exists: the seeded empty
strings are returned, not the looked-up ip/hostname. -/
theorem checkmode_reports_seeded_witness :
    run_module envOne pW true =
      ([Call.auth, Call.inventory 0, Call.reqResources "r1"],
       .exitJson { changed := false, failed := false, state := some "",
                   destroy_id := some "", ip := some "", hostname := some "" })
    ∧ ∀ d, Call.resource d ∉ (run_module envOne pW true).1 :=
  checkmode_reports_seeded envOne pW "tok"
    [Call.inventory 0, Call.reqResources "r1"]
    { ip := some "10.0.0.7", catalog_id := none, request_id := some "r1",
      destroy_id := some "d1", template_json := none, vm_state := none }
    rfl rfl



theorem findEntry_foldl_setEntry (name : String) :
    ∀ (content : List CatalogItem) (acc : List (String × String)),
      findEntry (content.foldl (fun d i => setEntry d i.name i.id) acc) name
        = (match (content.filter (fun i => i.name = name)).getLast? with
           | some it => some it.id
           | none => findEntry acc name) := by
  intro content
  induction content with
  | nil => intro acc; rfl
  | cons c rest ih =>
    intro acc
    rw [List.foldl_cons, ih]
    by_cases hc : c.name = name
    · rw [List.filter_cons_of_pos (by simpa using hc)]
      cases hf : rest.filter (fun i => i.name = name) with
      | nil =>
        rw [List.getLast?_singleton]
        show findEntry (setEntry acc c.name c.id) name = some c.id
        rw [hc, findEntry_setEntry_self]
      | cons x xs =>
        rw [List.getLast?_cons_cons]
        cases hg : (x :: xs).getLast? with
        | none => simp at hg
        | some it => rfl
    · rw [List.filter_cons_of_neg (by simpa using hc)]
      cases hf : rest.filter (fun i => i.name = name) with
      | nil =>
        show findEntry (setEntry acc c.name c.id) name = findEntry acc name
        exact findEntry_setEntry_ne acc name c.name c.id (fun h => hc h.symm)
      | cons x xs =>
        cases hg : (x :: xs).getLast? with
        | none => simp at hg
        | some it => rfl



/-- C7: the catalog resolver selects by exact name; a missing name is a
fatal failure, and with duplicate names the id of the LAST matching entry in
listing order wins silently. -/
theorem catalog_last_match_wins (env : Env) (p : Params) (st : VRAState)
    (content : List CatalogItem)
    (hcat : env.catalogResp = .ok content) :
    (content.filter (fun i => i.name = p.blueprint_name) = [] →
      get_catalog_id env p st =
        ([Call.catalog],
         .error ("Failed to get catalog ID for blueprint " ++ p.blueprint_name
           ++ ": " ++ keyError p.blueprint_name)))
    ∧ (∀ item,
        (content.filter (fun i => i.name = p.blueprint_name)).getLast? = some item →
        get_catalog_id env p st =
          ([Call.catalog], Except.ok { st with catalog_id := some item.id })) := by
  constructor
  · intro hnone
    have hfind : findEntry (buildCatalogDict content) p.blueprint_name = none := by
      rw [buildCatalogDict, findEntry_foldl_setEntry, hnone]
      rfl
    simp [get_catalog_id, hcat, hfind]
  · intro item hlast
    have hfind : findEntry (buildCatalogDict content) p.blueprint_name = some item.id := by
      rw [buildCatalogDict, findEntry_foldl_setEntry, hlast]
    simp [get_catalog_id, hcat, hfind]

/-- Witness for C7: two entries named `Linux` resolve to the id of the last
one (`cid3`). -/
theorem catalog_last_match_wins_witness :
    get_catalog_id envCatDup pW initState =
      ([Call.catalog], Except.ok { initState with catalog_id := some "cid3" }) :=
  (catalog_last_match_wins envCatDup pW initState
      [⟨"Linux", "cid1"⟩, ⟨"Other", "cid2"⟩, ⟨"Linux", "cid3"⟩] rfl).2
    ⟨"Linux", "cid3"⟩ rfl

/-- C6 counterexample: on a concrete server where `vm1`'s matched
infrastructure resource has no `ip_address` entry, the lookup does not
succeed with an empty ip — it aborts via `fail_json` and so does the run. -/
theorem missing_ip_lookup_counterexample :
    (get_vm envNoIp 0 pW initState).2 =
      Except.error (vmDetailsMsg "vm1" "list index out of range")
    ∧ run_module envNoIp pW false =
        ([Call.auth, Call.inventory 0, Call.reqResources "r1"],
         .failJson (vmDetailsMsg "vm1" "list index out of range")) :=
  ⟨rfl, rfl⟩

/-- C6 (amended): a single-match lookup whose infrastructure resource has no
`ip_address` entry fails with the VM-details message (the `IndexError` of
`[...][0]` surfaced by `fail_json`), instead of leaving the ip empty. -/
theorem missing_ip_lookup_fails (env : Env) (idx : Nat) (p : Params)
    (st : VRAState) (content : List InvItem) (v : InvItem)
    (items : List ResItem) (m : ResItem) (ms : List ResItem)
    (hinv : env.inventoryResp idx = .ok content)
    (hone : content.filter (fun i => i.name = p.hostname) = [v])
    (hres : env.reqResourcesResp v.requestId = .ok items)
    (hinfra : items.filter
        (fun el => el.providerLabel = "Infrastructure Service") = m :: ms)
    (hnoip : m.entries.filter (fun el => el.key = "ip_address") = []) :
    get_vm env idx p st =
      ([Call.inventory idx, Call.reqResources v.requestId],
       .error (vmDetailsMsg p.hostname "list index out of range")) := by
  simp [get_vm, hinv, hone, hres, hinfra, hnoip]

/-- Witness for the amended C6. -/
theorem missing_ip_lookup_fails_witness :
    get_vm envNoIp 0 pW initState =
      ([Call.inventory 0, Call.reqResources "r1"],
       .error (vmDetailsMsg "vm1" "list index out of range")) :=
  missing_ip_lookup_fails envNoIp 0 pW initState
    [⟨"vm0", "r0"⟩, ⟨"vm1", "r1"⟩] ⟨"vm1", "r1"⟩
    [⟨"Infrastructure Service", "d1", [⟨"other", "x"⟩]⟩]
    ⟨"Infrastructure Service", "d1", [⟨"other", "x"⟩]⟩ []
    rfl rfl rfl rfl rfl



/-- C8 counterexample: with a malformed template (no `data` key), the
exception raised inside `customize_template` does NOT surface as a
`fail_json` message — it propagates raw out of the module. -/
theorem customize_exception_uncaught_counterexample :
    run_module envBadTemplate pW false =
      ([Call.auth, Call.inventory 0, Call.catalog, Call.template "cid1",
        Call.customize],
       .exn (keyError "data"))
    ∧ ((run_module envBadTemplate pW false).2).isFailJson = false :=
  ⟨rfl, rfl⟩

/-- C8 (amended): every failing step of the run — authentication, inventory
lookup, catalog lookup, template fetch, creation request, status poll, and a
`Failed` build status — aborts via `fail_json` with a message embedding the
upstream exception or server explanation; the one exception is
`customize_template`, whose exceptions propagate raw (uncaught). -/
theorem failures_surface_messages (env : Env) (p : Params) :
    (∀ e, env.authResp = .error e →
      run_module env p false =
        ([Call.auth], .failJson ("Failed to get bearer token: " ++ e)))
    ∧ (∀ tok e, env.authResp = .ok tok → env.inventoryResp 0 = .error e →
        run_module env p false =
          ([Call.auth, Call.inventory 0], .failJson (vmDetailsMsg p.hostname e)))
    ∧ (∀ tok content e, env.authResp = .ok tok →
        env.inventoryResp 0 = .ok content →
        content.filter (fun i => i.name = p.hostname) = [] →
        env.catalogResp = .error e →
        run_module env p false =
          ([Call.auth, Call.inventory 0, Call.catalog],
           .failJson ("Failed to get catalog ID for blueprint "
             ++ p.blueprint_name ++ ": " ++ e)))
    ∧ (∀ tok content ccontent item e, env.authResp = .ok tok →
        env.inventoryResp 0 = .ok content →
        content.filter (fun i => i.name = p.hostname) = [] →
        env.catalogResp = .ok ccontent →
        (ccontent.filter (fun i => i.name = p.blueprint_name)).getLast? = some item →
        env.templateResp item.id = .error e →
        run_module env p false =
          ([Call.auth, Call.inventory 0, Call.catalog, Call.template item.id],
           .failJson ("Failed to get template JSON for creating the VM: " ++ e)))
    ∧ (∀ tok content ccontent item t e, env.authResp = .ok tok →
        env.inventoryResp 0 = .ok content →
        content.filter (fun i => i.name = p.hostname) = [] →
        env.catalogResp = .ok ccontent →
        (ccontent.filter (fun i => i.name = p.blueprint_name)).getLast? = some item →
        env.templateResp item.id = .ok t →
        customize_template t p.blueprint_instance_id p.cpu p.memory p.hostname
          p.network_adapter p.extra_disks = .error e →
        run_module env p false =
          ([Call.auth, Call.inventory 0, Call.catalog, Call.template item.id,
            Call.customize],
           .exn e))
    ∧ (∀ tok content ccontent item t t2 e, env.authResp = .ok tok →
        env.inventoryResp 0 = .ok content →
        content.filter (fun i => i.name = p.hostname) = [] →
        env.catalogResp = .ok ccontent →
        (ccontent.filter (fun i => i.name = p.blueprint_name)).getLast? = some item →
        env.templateResp item.id = .ok t →
        customize_template t p.blueprint_instance_id p.cpu p.memory p.hostname
          p.network_adapter p.extra_disks = .ok t2 →
        env.createResp = .error e →
        run_module env p false =
          ([Call.auth, Call.inventory 0, Call.catalog, Call.template item.id,
            Call.customize, Call.create],
           .failJson ("Failed to create VM from template: " ++ e)))
    ∧ (∀ tok content ccontent item t t2 rid e, env.authResp = .ok tok →
        env.inventoryResp 0 = .ok content →
        content.filter (fun i => i.name = p.hostname) = [] →
        env.catalogResp = .ok ccontent →
        (ccontent.filter (fun i => i.name = p.blueprint_name)).getLast? = some item →
        env.templateResp item.id = .ok t →
        customize_template t p.blueprint_instance_id p.cpu p.memory p.hostname
          p.network_adapter p.extra_disks = .ok t2 →
        env.createResp = .ok rid →
        env.statusResp 0 = .error e →
        run_module env p false =
          ([Call.auth, Call.inventory 0, Call.catalog, Call.template item.id,
            Call.customize, Call.create, Call.status 0],
           .failJson ("Failed to get VM create status: " ++ e)))
    ∧ (∀ tok content ccontent item t t2 rid r, env.authResp = .ok tok →
        env.inventoryResp 0 = .ok content →
        content.filter (fun i => i.name = p.hostname) = [] →
        env.catalogResp = .ok ccontent →
        (ccontent.filter (fun i => i.name = p.blueprint_name)).getLast? = some item →
        env.templateResp item.id = .ok t →
        customize_template t p.blueprint_instance_id p.cpu p.memory p.hostname
          p.network_adapter p.extra_disks = .ok t2 →
        env.createResp = .ok rid →
        env.statusResp 0 = .ok r → r.stateName = "Failed" → 0 < p.wait_timeout →
        run_module env p false =
          ([Call.auth, Call.inventory 0, Call.catalog, Call.template item.id,
            Call.customize, Call.create, Call.status 0],
           .failJson ("Failed to create VM: " ++ buildExplanation r))) := by
  refine ⟨?_, ?_, ?_, ?_, ?_, ?_, ?_, ?_⟩
  · intro e h
    simp [run_module, get_auth, h]
  · intro tok e h hinv
    simp [run_module, get_auth, h, get_vm, hinv]
  · intro tok content e h hinv hzero hcat
    simp [run_module, get_auth, h, get_vm, hinv, hzero, initState,
      get_catalog_id, hcat]
  · intro tok content ccontent item e h hinv hzero hcat hlast htem
    have hfind : findEntry (buildCatalogDict ccontent) p.blueprint_name
        = some item.id := by
      rw [buildCatalogDict, findEntry_foldl_setEntry, hlast]
    simp [run_module, get_auth, h, get_vm, hinv, hzero, initState,
      get_catalog_id, hcat, hfind, get_template_json, htem]
  · intro tok content ccontent item t e h hinv hzero hcat hlast htem hcust
    have hfind : findEntry (buildCatalogDict ccontent) p.blueprint_name
        = some item.id := by
      rw [buildCatalogDict, findEntry_foldl_setEntry, hlast]
    simp [run_module, get_auth, h, get_vm, hinv, hzero, initState,
      get_catalog_id, hcat, hfind, get_template_json, htem, hcust]
  · intro tok content ccontent item t t2 e h hinv hzero hcat hlast htem hcust hcre
    have hfind : findEntry (buildCatalogDict ccontent) p.blueprint_name
        = some item.id := by
      rw [buildCatalogDict, findEntry_foldl_setEntry, hlast]
    simp [run_module, get_auth, h, get_vm, hinv, hzero, initState,
      get_catalog_id, hcat, hfind, get_template_json, htem, hcust,
      create_vm_from_template, hcre]
  · intro tok content ccontent item t t2 rid e h hinv hzero hcat hlast htem hcust hcre hstat
    have hfind : findEntry (buildCatalogDict ccontent) p.blueprint_name
        = some item.id := by
      rw [buildCatalogDict, findEntry_foldl_setEntry, hlast]
    have hpoll : pollAux env.statusResp p.wait_timeout 0 =
        (PollOutcome.fail ("Failed to get VM create status: " ++ e), 0) := by
      rw [pollAux, hstat]
    simp [run_module, get_auth, h, get_vm, hinv, hzero, initState,
      get_catalog_id, hcat, hfind, get_template_json, htem, hcust,
      create_vm_from_template, hcre, hpoll, statusCalls, List.range_succ]
  · intro tok content ccontent item t t2 rid r h hinv hzero hcat hlast htem hcust hcre hstat hF hT
    have hfind : findEntry (buildCatalogDict ccontent) p.blueprint_name
        = some item.id := by
      rw [buildCatalogDict, findEntry_foldl_setEntry, hlast]
    have hpoll : pollAux env.statusResp p.wait_timeout 0 =
        (PollOutcome.fail ("Failed to create VM: " ++ buildExplanation r), 0) := by
      rw [pollAux, hstat]
      dsimp only
      rw [dif_neg (by simpa using hT : ¬ (15 * ((0 : Nat) : Int)) ≥ p.wait_timeout)]
      rw [if_pos hF]
    simp [run_module, get_auth, h, get_vm, hinv, hzero, initState,
      get_catalog_id, hcat, hfind, get_template_json, htem, hcust,
      create_vm_from_template, hcre, hpoll, statusCalls, List.range_succ]

/-- Witness for the amended C8: a failing authentication surfaces its
exception text in the `fail_json` message. -/
theorem failures_surface_messages_witness :
    run_module envAuthFail pW false =
      ([Call.auth], .failJson ("Failed to get bearer token: " ++ "boom")) :=
  (failures_surface_messages envAuthFail pW).1 "boom" rfl


end VraGuest
